import Mathlib

/-!
Verification development for the gdigrab frame-capture device
(src/libavdevice/gdigrab.c): the capture worker loop, the single-slot
frame handoff between the worker thread and the demuxer consumer, the
frame pacing controller, the startup geometry checks and the packet
size arithmetic.  Machine integers of the C source (int, int64_t) are
embedded as Int; sizes as Nat.  All values involved stay far below the
overflow bounds of the C types, so no wraparound modelling is needed.
-/

namespace Gdigrab

/-- POSIX error value EIO is 5 and the AVERROR macro negates errno
values, so AVERROR(EIO) as returned throughout gdigrab.c is -5. -/
def averrEio : Int := -5

/-- AVERROR(EAGAIN): EAGAIN is 11, negated. Returned by
gdigrab_read_packet in non-blocking mode when no frame is available. -/
def AVERROR_EAGAIN : Int := -11

/-!
Pacing controller: the sleep computation of one worker iteration,
gdigrab_worker lines 628-639.  Inputs are the three av_gettime readings
of that stretch of code (timeStart is time_start of the iteration,
timeSleepStart the reading at line 628, timeEnd the reading at line
634), the configured frame period time_base and the incoming
sleep_balance.  The av_usleep call itself only consumes wall time and
is therefore visible here only through the timeEnd reading.
-/

/-- Outcome of one pacing computation: the raw target sleep time_sleep
(line 629), the requested sleep time_request_sleep (line 630), whether
av_usleep was invoked (line 631), and the updated sleep_balance after
the clamp at lines 636-639. -/
structure PacingOut where
  timeSleep : Int
  timeRequestSleep : Int
  slept : Bool
  newBalance : Int
deriving DecidableEq

/-- Direct embedding of gdigrab_worker lines 628-639. -/
def pacingStep (timeBase timeStart timeSleepStart timeEnd balance : Int) : PacingOut :=
  let timeSleep := timeBase - (timeSleepStart - timeStart)
  let timeRequestSleep := timeSleep + balance
  let timeActualSleep := timeEnd - timeSleepStart
  let b := balance + (timeSleep - timeActualSleep)
  let newBalance := if b < -timeBase then -timeBase else b
  ⟨timeSleep, timeRequestSleep, decide (timeRequestSleep > 0), newBalance⟩

namespace Slot

/-!
The handoff slot protocol, abstracted over operation sequences.  The C
slot is the single pointer gdigrab->frame_in_stock together with
grab_worker_quit, guarded by grab_mutex/grab_cond.  To state the
at-most-one-pending invariant non-vacuously, pending is embedded as a
list of entries (buffer index, time_frame): the representation would
allow several pending entries, and the protocol is what keeps the
length at one.
-/

/-- Slot state: the pending entries and the quit flag. -/
structure St where
  pending : List (Nat × Int)
  quit : Bool
deriving DecidableEq

/-- The operations the two threads perform on the slot. -/
inductive Op where
  | publish (entry : Nat × Int)
  | take
  | requestQuit
deriving DecidableEq

/-- One completed slot operation.  publish follows gdigrab_worker lines
608-625: the worker holds the mutex, waits in a condition loop while
frame_in_stock is occupied, and stores the new entry only once the slot
is empty; if quit was requested it breaks out without storing.  An
occupied slot leaves the blocked publish without effect here.  take
follows gdigrab_copy_frame lines 739-758: the consumer reads the entry
and clears frame_in_stock before returning.  requestQuit follows
gdigrab_read_close lines 808-810. -/
def step : St → Op → St
  | s, Op.publish e =>
      if s.quit then s
      else if s.pending = [] then { s with pending := [e] }
      else s
  | s, Op.take => { s with pending := [] }
  | s, Op.requestQuit => { s with quit := true }

/-- Run a sequence of slot operations from the initial empty slot. -/
def run (ops : List Op) : St := ops.foldl step ⟨[], false⟩

end Slot

/-!
Consumer side: gdigrab_read_packet and gdigrab_copy_frame, over the
shared fields of struct gdigrab that they touch.
-/

/-- The shared demuxer state read and written under grab_mutex by
gdigrab_read_packet: error_code, frame_in_stock (abstracted to the
published buffer index) and time_frame. -/
structure Shared where
  errorCode : Int
  frameInStock : Option Nat
  timeFrame : Int
deriving DecidableEq

/-- Result of a gdigrab_read_packet call.  pkt carries the pts written
at gdigrab_copy_frame line 739.  blockedWait marks the blocking branch
parking in pthread_cond_wait (line 784); its eventual outcome depends
on the state at wake time. -/
inductive ReadRet where
  | pkt (pts : Int)
  | eio
  | eagain
  | blockedWait
deriving DecidableEq

/-- gdigrab_copy_frame lines 731-761 restricted to the shared state: it
writes time_frame into the packet pts and clears frame_in_stock before
returning.  The none case cannot be reached from its call sites. -/
def copyFrame (s : Shared) : ReadRet × Shared :=
  match s.frameInStock with
  | some _ => (ReadRet.pkt s.timeFrame, { s with frameInStock := none })
  | none => (ReadRet.eio, s)

/-- gdigrab_read_packet lines 770-797.  The error_code test comes first
(lines 776-777), before the frame_in_stock test, so a recorded fatal
error short-circuits everything: no wait, no frame consumption, no
state change (the broadcast at line 793 changes no field). -/
def readPacket (s : Shared) (nonblock : Bool) : ReadRet × Shared :=
  if s.errorCode ≠ 0 then (ReadRet.eio, s)
  else
    match s.frameInStock with
    | some _ => copyFrame s
    | none => if nonblock then (ReadRet.eagain, s) else (ReadRet.blockedWait, s)

/-- Result of gdigrab_worker_start (lines 667-688) in the ordinary
schedule in which the starting thread is already parked in
pthread_cond_wait when gdigrab_dc_init finishes: the first broadcast it
receives is the one at gdigrab_dc_init line 451, so start returns the
error_code recorded by dc-init (line 450) before any capture iteration
has run. -/
def workerStartResult (dcInitCode : Int) : Int := dcInitCode

namespace Micro

/-!
A small-step machine for the worker loop of gdigrab_worker lines
571-650, at the granularity needed to settle the shutdown claims: each
phase names the next statement block the worker thread will execute,
and the shared fields are those the consumer side can also touch.
-/

/-- Program points of the worker loop.  loopCheck is the for-loop
condition testing grab_worker_quit (line 571); backendBlit is the
SelectObject/BitBlt backend call block (lines 580-599); lockedCheck
carries the Bool blit outcome and models the checks at lines 602-609
made after taking the mutex; waitStock is the publish wait loop (lines
612-616) carrying the frame reference about to be published (none when
the blit of this iteration failed); pacing is lines 621-649; exited is
the loop break followed by gdigrab_dc_destroy. -/
inductive Phase where
  | loopCheck (sn : Nat)
  | backendBlit (sn : Nat)
  | lockedCheck (sn : Nat) (ok : Bool)
  | waitStock (sn : Nat) (frame : Option Nat)
  | pacing (sn : Nat)
  | exited
deriving DecidableEq

/-- Combined state: worker program point plus the shared fields. -/
structure St where
  phase : Phase
  quit : Bool
  frameInStock : Option Nat
  errorCode : Int
deriving DecidableEq

/-- One step of the worker thread.  The oracle gives the BitBlt outcome
of each iteration.  Faithful points: the waitStock condition loop
re-evaluates only frameInStock, exactly like the while predicate at
line 612, so a pending quit is noticed only after the slot drains (the
quit test at line 618 is the second branch); a blit failure on
iteration 0 records error_code and exits (lines 604-607). -/
def wstep (oracle : Nat → Bool) (s : St) : St :=
  match s.phase with
  | Phase.loopCheck sn =>
      if s.quit then { s with phase := Phase.exited }
      else { s with phase := Phase.backendBlit sn }
  | Phase.backendBlit sn =>
      { s with phase := Phase.lockedCheck sn (oracle sn) }
  | Phase.lockedCheck sn ok =>
      if !ok && (sn == 0) then { s with errorCode := averrEio, phase := Phase.exited }
      else if s.quit then { s with phase := Phase.exited }
      else { s with phase := Phase.waitStock sn (if ok then some (sn % 2) else none) }
  | Phase.waitStock sn frame =>
      if s.frameInStock.isSome then s
      else if s.quit then { s with phase := Phase.exited }
      else { s with frameInStock := frame, phase := Phase.pacing sn }
  | Phase.pacing sn =>
      { s with phase := Phase.loopCheck (sn + 1) }
  | Phase.exited => s

/-- gdigrab_read_close lines 805-813: take the mutex, set
grab_worker_quit, broadcast, release the mutex and return.  It contains
no pthread_join and does not consult the worker phase, so as a function
it returns whatever the worker is still doing; only the quit flag
changes. -/
def readCloseSys (s : St) : St := { s with quit := true }

end Micro

/-- State in which the worker is parked in the publish wait loop of
iteration 3 holding frame index 1 to publish, the slot still holds the
unconsumed frame 0, and quit has already been requested (and the
broadcast of gdigrab_read_close delivered): the scenario of a close
arriving while a frame is in stock and no further consumer pull ever
happens. -/
def c5state : Micro.St :=
  ⟨Micro.Phase.waitStock 3 (some 1), true, some 0, 0⟩

/-- State in which the worker is about to execute the BitBlt backend
call of iteration 3, no quit yet, slot empty.  It is reached from
loopCheck 3 by one worker step. -/
def c6state : Micro.St :=
  ⟨Micro.Phase.backendBlit 3, false, none, 0⟩

namespace Run

/-!
Deterministic trace of the worker loop (gdigrab_worker lines 562-650)
under the eager blocking consumer schedule: before every worker
broadcast the consumer is already parked in the blocking branch of
gdigrab_read_packet (line 784), so each published frame is drained
immediately and the publish wait loop never blocks.  The clock
parameter gives the successive av_gettime return values; the oracle
gives the BitBlt outcome per iteration.
-/

/-- Trace state.  k counts av_gettime calls made so far; timeEnd and
balance are the local variables time_end and sleep_balance of the
worker; errorCode and fatal record the fatal first-frame exit;
delivered lists (sn, pts) for every packet the consumer copied out,
pts being the time_frame stored at publish (line 621) and written to
the packet at gdigrab_copy_frame line 739; eioReturns lists the
iterations whose broadcast woke the blocked consumer to an empty slot,
making that gdigrab_read_packet call return AVERROR(EIO) (lines
786-791); starts is a ghost list recording (sn, time_start) at the top
of each iteration, before the blit. -/
structure St where
  k : Nat
  timeEnd : Int
  balance : Int
  errorCode : Int
  fatal : Bool
  delivered : List (Nat × Int)
  eioReturns : List Nat
  starts : List (Nat × Int)
deriving DecidableEq

/-- Initial trace state: time_end := av_gettime() at line 570. -/
def init (clock : Nat → Int) : St := ⟨1, clock 0, 0, 0, false, [], [], []⟩

/-- One loop iteration sn.  time_start of this frame is time_end of the
last one (line 573).  A failed blit leaves the local frame_in_stock
NULL (lines 583, 592); failure on iteration 0 records error_code and
breaks (lines 604-607).  Otherwise the worker publishes time_start and
the frame pointer (lines 621-622) and broadcasts; the parked consumer
wakes and either copies the frame out or, when the published pointer is
NULL, returns AVERROR(EIO).  Then the pacing block lines 628-639. -/
def iter (clock : Nat → Int) (oracle : Nat → Bool) (timeBase : Int) (s : St) (sn : Nat) : St :=
  if s.fatal then s
  else
    let timeStart := s.timeEnd
    let starts := s.starts ++ [(sn, timeStart)]
    let ok := oracle sn
    let k1 := s.k + 1
    if !ok && (sn == 0) then
      { k := k1, timeEnd := timeStart, balance := s.balance, errorCode := averrEio,
        fatal := true, delivered := s.delivered, eioReturns := s.eioReturns, starts := starts }
    else
      let delivered := if ok then s.delivered ++ [(sn, timeStart)] else s.delivered
      let eioReturns := if ok then s.eioReturns else s.eioReturns ++ [sn]
      let timeSleepStart := clock k1
      let timeSleep := timeBase - (timeSleepStart - timeStart)
      let timeEnd := clock (k1 + 1)
      let timeActualSleep := timeEnd - timeSleepStart
      let b := s.balance + (timeSleep - timeActualSleep)
      let balance := if b < -timeBase then -timeBase else b
      { k := k1 + 2, timeEnd := timeEnd, balance := balance, errorCode := s.errorCode,
        fatal := false, delivered := delivered, eioReturns := eioReturns, starts := starts }

/-- Run n loop iterations. -/
def run (clock : Nat → Int) (oracle : Nat → Bool) (timeBase : Int) (n : Nat) : St :=
  (List.range n).foldl (iter clock oracle timeBase) (init clock)

end Run

/-- A concrete clock for counterexamples and witnesses: the k-th
av_gettime call returns k. -/
def clockLin : Nat → Int := fun k => (k : Int)

/-- Capture oracle failing exactly on iteration 5. -/
def oracleSkip5 : Nat → Bool := fun sn => sn != 5

/-- Capture oracle failing exactly on the first iteration. -/
def oracleFailFirst : Nat → Bool := fun sn => sn != 0

/-!
Startup geometry: gdigrab_dc_init lines 344-392.
-/

/-- A Win32 RECT. -/
structure Rect where
  left : Int
  top : Int
  right : Int
  bottom : Int
deriving DecidableEq

/-- Clip rectangle computation of gdigrab_dc_init lines 344-355: when
either of the width/height options is unset (zero), the full resolved
target area is used; otherwise the rectangle is built from the offset
and size options. -/
def computeClipRect (virtualRect : Rect) (width height offsetX offsetY : Int) : Rect :=
  if width = 0 ∨ height = 0 then virtualRect
  else ⟨offsetX, offsetY, width + offsetX, height + offsetY⟩

/-- The single startup geometry failure: both geometry checks of
gdigrab_dc_init set the same ret = AVERROR(EIO) and jump to end. -/
inductive DcInitErr where
  | invalidRegion
deriving DecidableEq

/-- The clip rectangle extends outside the resolved target bounds:
condition of gdigrab_dc_init lines 357-360. -/
def extendsOutside (clip virtualRect : Rect) : Prop :=
  clip.left < virtualRect.left ∨ clip.top < virtualRect.top ∨
    clip.right > virtualRect.right ∨ clip.bottom > virtualRect.bottom

/-- Geometry checks of gdigrab_dc_init: the bounds check at lines
357-369 and the width/height/bit-depth check at lines 387-392.  On
error, control jumps to end before CreateCompatibleDC and the
CreateDIBSection buffer allocations at lines 394-422, so no frame
buffer is allocated; on success the returned clip rectangle is the one
startup proceeds with. -/
def geometryCheck (virtualRect : Rect) (width height offsetX offsetY bpp : Int) :
    Except DcInitErr Rect :=
  let clip := computeClipRect virtualRect width height offsetX offsetY
  if clip.left < virtualRect.left ∨ clip.top < virtualRect.top ∨
      clip.right > virtualRect.right ∨ clip.bottom > virtualRect.bottom then
    Except.error DcInitErr.invalidRegion
  else if clip.right - clip.left ≤ 0 ∨ clip.bottom - clip.top ≤ 0 ∨ bpp % 8 ≠ 0 then
    Except.error DcInitErr.invalidRegion
  else
    Except.ok clip

/-!
Packet size arithmetic: gdigrab_dc_init lines 424-430 and
gdigrab_copy_frame lines 731-761.  The Win32 header sizes are fixed:
BITMAPFILEHEADER is 14 bytes, BITMAPINFOHEADER 40 bytes, RGBQUAD 4
bytes.
-/

/-- Byte size of the Win32 BITMAPFILEHEADER structure. -/
def sizeBITMAPFILEHEADER : Nat := 14

/-- Byte size of the Win32 BITMAPINFOHEADER structure. -/
def sizeBITMAPINFOHEADER : Nat := 40

/-- Byte size of the Win32 RGBQUAD structure. -/
def sizeRGBQUAD : Nat := 4

/-- header_size computed at gdigrab_dc_init lines 428-429: file header
plus info header plus, only when the bit depth is at most 8, a palette
of 2 to the bpp RGBQUAD entries. -/
def headerSize (bpp : Nat) : Nat :=
  sizeBITMAPFILEHEADER + sizeBITMAPINFOHEADER + (if bpp ≤ 8 then 2 ^ bpp else 0) * sizeRGBQUAD

/-- bmWidthBytes as reported by GetObject (gdigrab_dc_init line 425)
for the DIB section created at lines 414-416.  Modelled from the
documented contract of the external capture backend: scan lines of a
Win32 DIB section are DWORD aligned, so the row stride in bytes is
the pixel row size rounded up to a multiple of 4. -/
def bmWidthBytes (width bpp : Nat) : Nat := ((width * bpp + 31) / 32) * 4

/-- frame_size computed at gdigrab_dc_init line 427: row stride times
height times plane count, with bmPlanes = 1 for a DIB section. -/
def frameSize (width height bpp : Nat) : Nat := bmWidthBytes width bpp * height * 1

/-- Total packet size: gdigrab_copy_frame line 734 computes file_size =
header_size + frame_size and line 736 allocates the packet with exactly
that size. -/
def fileSize (width height bpp : Nat) : Nat := headerSize bpp + frameSize width height bpp

/-!
Theorems settling the claims.
-/

/-- C1: for every sequence of publish, take and requestQuit operations
on the handoff slot, starting from the empty slot, the slot holds at
most one pending (unconsumed) frame entry at any instant: publish
stores only into an empty slot (the worker waits at gdigrab_worker
lines 612-616 while frame_in_stock is occupied and stores at line 622
only after the slot drained), and take clears frame_in_stock before
returning (gdigrab_copy_frame lines 756-758), so no entry is ever
duplicated and at most one frame is in flight. -/
theorem c1_slot_at_most_one_pending (ops : List Slot.Op) :
    (Slot.run ops).pending.length ≤ 1 := by
  have hstep : ∀ (s : Slot.St) (op : Slot.Op),
      s.pending.length ≤ 1 → (Slot.step s op).pending.length ≤ 1 := by
    intro s op hs
    cases op with
    | publish e =>
        by_cases hq : s.quit = true
        · simpa [Slot.step, hq] using hs
        · by_cases hp : s.pending = []
          · simp [Slot.step, hq, hp]
          · simpa [Slot.step, hq, hp] using hs
    | take => simp [Slot.step]
    | requestQuit => simpa [Slot.step] using hs
  have hfold : ∀ (l : List Slot.Op) (s : Slot.St), s.pending.length ≤ 1 →
      ((l.foldl Slot.step s).pending.length ≤ 1) := by
    intro l
    induction l with
    | nil => intro s hs; simpa using hs
    | cons op l ih => intro s hs; exact ih _ (hstep s op hs)
  simpa [Slot.run] using hfold ops ⟨[], false⟩ (by simp)

/-- C2: in every pacing iteration with target period timeBase, capture
start timeStart and drift balance, the raw target sleep is the period
minus the elapsed capture time, the requested sleep is the raw value
plus the balance, a requested sleep that is not positive performs no
sleep (its elapsed time timeEnd - timeSleepStart is still measured and
enters the balance), and the new balance is the old one plus the gap
between raw target sleep and actual sleep, clamped to never fall below
the negated period. -/
theorem c2_pacing_step_spec (timeBase timeStart timeSleepStart timeEnd balance : Int) :
    (pacingStep timeBase timeStart timeSleepStart timeEnd balance).timeSleep =
      timeBase - (timeSleepStart - timeStart) ∧
    (pacingStep timeBase timeStart timeSleepStart timeEnd balance).timeRequestSleep =
      (timeBase - (timeSleepStart - timeStart)) + balance ∧
    ((pacingStep timeBase timeStart timeSleepStart timeEnd balance).timeRequestSleep ≤ 0 →
      (pacingStep timeBase timeStart timeSleepStart timeEnd balance).slept = false) ∧
    (pacingStep timeBase timeStart timeSleepStart timeEnd balance).newBalance =
      max (balance + ((timeBase - (timeSleepStart - timeStart)) - (timeEnd - timeSleepStart)))
        (-timeBase) ∧
    -timeBase ≤ (pacingStep timeBase timeStart timeSleepStart timeEnd balance).newBalance := by
  refine ⟨rfl, rfl, ?_, ?_, ?_⟩
  · intro hle
    simp only [pacingStep] at hle ⊢
    simp only [decide_eq_false_iff_not, not_lt]
    omega
  · simp only [pacingStep]
    rcases le_or_lt (balance + ((timeBase - (timeSleepStart - timeStart)) - (timeEnd - timeSleepStart))) (-timeBase) with h | h
    · rw [max_eq_right h]
      split <;> omega
    · rw [max_eq_left h.le]
      split <;> omega
  · simp only [pacingStep]
    split <;> omega

/-- Witness for C2, realizing the long-stall scenario of the spec: with
period 100 the capture stretch took 500 (five periods), so the
requested sleep is negative, no sleep happens, and the new balance is
clamped at -100 instead of swinging to -401. -/
theorem c2_pacing_step_spec_witness :
    (pacingStep 100 0 500 501 0).timeRequestSleep ≤ 0 ∧
    (pacingStep 100 0 500 501 0).slept = false ∧
    (pacingStep 100 0 500 501 0).newBalance = -100 :=
  ⟨by decide, (c2_pacing_step_spec 100 0 500 501 0).2.2.1 (by decide), by decide⟩

/-- C3 counterexample: in the concrete run of 10 capture iterations
with the clock returning k at the k-th av_gettime call, period 100, and
only iteration 5 failing, exactly 9 frames are delivered and the worker
neither terminates nor records a fatal error — but the failure is not
invisible to the consumer: the broadcast of iteration 5 (issued at
gdigrab_worker line 623 after storing the NULL frame_in_stock left by
the failed blit, lines 592 and 622) wakes the consumer parked in the
blocking branch of gdigrab_read_packet, which finds frame_in_stock
empty and returns AVERROR(EIO) (lines 786-791).  So an error does
surface to the consumer for that pull, refuting the claim that a later
capture failure never surfaces an error. -/
theorem c3_counterexample_transient_eio_surfaces :
    (Run.run clockLin oracleSkip5 100 10).delivered.length = 9 ∧
    (Run.run clockLin oracleSkip5 100 10).fatal = false ∧
    (Run.run clockLin oracleSkip5 100 10).errorCode = 0 ∧
    (Run.run clockLin oracleSkip5 100 10).eioReturns = [5] := by
  refine ⟨by decide, by decide, by decide, by decide⟩

/-- C3 amended: for every clock schedule and period, a run of 10
iterations in which only iteration 5 fails delivers exactly the 9
frames of iterations 0-4 and 6-9 in order, the worker never terminates
and records no fatal error code, and the consumer continues receiving
subsequent frames normally; however, a consumer blocked in a blocking
pull during the failed iteration is woken to an empty slot and that
single pull returns the transient AVERROR(EIO), so the failure is
observable as exactly one transient error return at iteration 5. -/
theorem c3_amended_nine_delivered (clock : Nat → Int) (timeBase : Int) :
    (Run.run clock oracleSkip5 timeBase 10).delivered.map Prod.fst =
      [0, 1, 2, 3, 4, 6, 7, 8, 9] ∧
    (Run.run clock oracleSkip5 timeBase 10).fatal = false ∧
    (Run.run clock oracleSkip5 timeBase 10).errorCode = 0 ∧
    (Run.run clock oracleSkip5 timeBase 10).eioReturns = [5] :=
  ⟨rfl, rfl, rfl, rfl⟩

/-- C4: when the very first capture iteration fails, the worker records
AVERROR(EIO) in error_code and terminates without retrying (lines
604-607), so zero frames are ever delivered; start still returns
success because gdigrab_worker_start observed the successful dc-init
broadcast before any capture ran; and every subsequent consumer pull,
blocking or not and whatever is in the slot, hits the error_code test
first (gdigrab_read_packet lines 776-777) and returns AVERROR(EIO)
instead of blocking. -/
theorem c4_first_frame_failure_is_terminal (clock : Nat → Int) (timeBase : Int) :
    (Run.run clock oracleFailFirst timeBase 10).fatal = true ∧
    (Run.run clock oracleFailFirst timeBase 10).errorCode = averrEio ∧
    (Run.run clock oracleFailFirst timeBase 10).delivered = [] ∧
    workerStartResult 0 = 0 ∧
    (∀ (fs : Option Nat) (nonblock : Bool),
      readPacket ⟨averrEio, fs, 0⟩ nonblock = (ReadRet.eio, ⟨averrEio, fs, 0⟩)) :=
  ⟨rfl, rfl, rfl, rfl, fun _ _ => rfl⟩

/-- C7: every frame delivered to the consumer carries as pts exactly
the capture start time of the iteration that produced it: the pair
(sn, pts) of every delivered packet appears in the ghost list of
(iteration, time_start) pairs recorded at the top of each iteration,
before the blit.  The worker stores time_start into time_frame at
publish (gdigrab_worker line 621, with time_start fixed at line 573
before the blit), and gdigrab_copy_frame writes that value into the
packet pts (line 739) — not the publish or consume time. -/
theorem c7_pts_is_capture_start_time (clock : Nat → Int) (oracle : Nat → Bool)
    (timeBase : Int) (n : Nat) (e : Nat × Int)
    (he : e ∈ (Run.run clock oracle timeBase n).delivered) :
    e ∈ (Run.run clock oracle timeBase n).starts := by
  have hstep : ∀ (s : Run.St) (sn : Nat),
      (∀ x ∈ s.delivered, x ∈ s.starts) →
      (∀ x ∈ (Run.iter clock oracle timeBase s sn).delivered,
        x ∈ (Run.iter clock oracle timeBase s sn).starts) := by
    intro s sn h x hx
    simp only [Run.iter] at hx ⊢
    by_cases hf : s.fatal = true
    · simp only [hf, if_true] at hx ⊢
      exact h x hx
    · simp only [hf, if_false, Bool.false_eq_true] at hx ⊢
      by_cases hz : (!oracle sn && (sn == 0)) = true
      · simp only [hz, if_true] at hx ⊢
        simp only [List.mem_append, List.mem_singleton]
        exact Or.inl (h x hx)
      · simp only [hz, if_false, Bool.false_eq_true] at hx ⊢
        by_cases ho : oracle sn = true
        · simp only [ho, if_true] at hx ⊢
          simp only [List.mem_append, List.mem_singleton] at hx ⊢
          rcases hx with hx | hx
          · exact Or.inl (h x hx)
          · exact Or.inr hx
        · simp only [ho, if_false, Bool.false_eq_true] at hx ⊢
          simp only [List.mem_append, List.mem_singleton]
          exact Or.inl (h x hx)
  have hfold : ∀ (l : List Nat) (s : Run.St),
      (∀ x ∈ s.delivered, x ∈ s.starts) →
      (∀ x ∈ (l.foldl (Run.iter clock oracle timeBase) s).delivered,
        x ∈ (l.foldl (Run.iter clock oracle timeBase) s).starts) := by
    intro l
    induction l with
    | nil => intro s hs; simpa using hs
    | cons sn l ih => intro s hs; exact ih _ (hstep s sn hs)
  exact hfold (List.range n) (Run.init clock) (by simp [Run.init]) e he

/-- Witness for C7: a concrete one-iteration run with the linear clock
delivers the pair (0, 0), and that pair indeed appears among the
recorded capture start times. -/
theorem c7_pts_is_capture_start_time_witness :
    ((0, (0 : Int)) ∈ (Run.run clockLin (fun _ => true) 100 1).delivered) ∧
    ((0, (0 : Int)) ∈ (Run.run clockLin (fun _ => true) 100 1).starts) :=
  ⟨by decide,
    c7_pts_is_capture_start_time clockLin (fun _ => true) 100 1 (0, 0) (by decide)⟩

/-- C5 (code bug): a producer blocked in the publish wait loop is NOT
released by a quit request while the slot stays occupied.  In c5state
the worker is parked in the wait loop of gdigrab_worker lines 612-616
with frame 0 still unconsumed and quit already requested (and its
broadcast delivered); since the while predicate re-checks only
frame_in_stock and never grab_worker_quit, every wakeup re-enters
pthread_cond_wait: any number of worker steps leaves the state fixed,
the loop is never exited and the worker never reaches the quit test at
line 618, contradicting the claim that publish returns once quit is
requested regardless of whether the consumer drains the slot. -/
theorem c5_publish_wait_ignores_quit (oracle : Nat → Bool) (n : Nat) :
    (Micro.wstep oracle)^[n] c5state = c5state ∧
    c5state.quit = true ∧
    c5state.frameInStock = some 0 ∧
    c5state.phase ≠ Micro.Phase.exited :=
  ⟨Function.iterate_fixed rfl n, rfl, rfl, by decide⟩

/-- C6 (code bug): gdigrab_read_close is not a blocking join.  From
c6state — the worker one step past the loop condition, about to execute
the BitBlt backend call of iteration 3 — the close call returns with
the quit flag set but the worker phase untouched and not exited, and
the very next worker step still performs the backend blit, so a backend
call occurs after close returned.  A second close is a no-op on the
model state (idempotent), but close never waits for the worker. -/
theorem c6_close_returns_before_worker_exit (oracle : Nat → Bool) :
    Micro.wstep oracle ⟨Micro.Phase.loopCheck 3, false, none, 0⟩ = c6state ∧
    (Micro.readCloseSys c6state).quit = true ∧
    (Micro.readCloseSys c6state).phase = Micro.Phase.backendBlit 3 ∧
    (Micro.readCloseSys c6state).phase ≠ Micro.Phase.exited ∧
    Micro.wstep oracle (Micro.readCloseSys c6state) =
      ⟨Micro.Phase.lockedCheck 3 (oracle 3), true, none, 0⟩ ∧
    Micro.readCloseSys (Micro.readCloseSys c6state) = Micro.readCloseSys c6state :=
  ⟨rfl, rfl, rfl, by decide, rfl, rfl⟩

/-- C8 counterexample: for a clip rectangle of width 1 and height 1 at
bit depth 24, the assembled packet size is 58 bytes, not the claimed
14 + 40 + 1*1*3 = 57 bytes: the DIB row stride is rounded up to a
DWORD, so the single 3-byte row occupies 4 bytes. -/
theorem c8_counterexample_stride_padding :
    fileSize 1 1 24 ≠ sizeBITMAPFILEHEADER + sizeBITMAPINFOHEADER + 1 * 1 * 3 := by
  decide

/-- C8 amended: for every capture region of width W and height H at bit
depth 24, the assembled packet size equals the fixed file header size
plus the fixed info header size plus H times the DWORD-aligned row
stride of W pixels, with no palette table (the palette term of
header_size is present only when the bit depth is at most 8, and
24 > 8); when 3*W is already a multiple of 4 this is exactly the
claimed W*H*3 pixel bytes. -/
theorem c8_amended_packet_size (width height : Nat) :
    fileSize width height 24 =
      sizeBITMAPFILEHEADER + sizeBITMAPINFOHEADER + bmWidthBytes width 24 * height ∧
    headerSize 24 = sizeBITMAPFILEHEADER + sizeBITMAPINFOHEADER ∧
    (3 * width % 4 = 0 →
      fileSize width height 24 =
        sizeBITMAPFILEHEADER + sizeBITMAPINFOHEADER + width * height * 3) := by
  refine ⟨?_, by norm_num [headerSize, sizeBITMAPFILEHEADER, sizeBITMAPINFOHEADER], ?_⟩
  · simp [fileSize, frameSize, headerSize]
  · intro hw
    have hb : bmWidthBytes width 24 = 3 * width := by
      simp only [bmWidthBytes]
      omega
    have hp : (if (24 : Nat) ≤ 8 then 2 ^ 24 else 0) = 0 := by norm_num
    simp only [fileSize, frameSize, headerSize, hb, hp, Nat.mul_one]
    ring

/-- Witness for C8 amended: width 4 has a 12-byte row needing no
padding, so the packet for a 4 by 2 region is exactly the header sizes
plus 4*2*3 pixel bytes. -/
theorem c8_amended_packet_size_witness :
    fileSize 4 2 24 = sizeBITMAPFILEHEADER + sizeBITMAPINFOHEADER + 4 * 2 * 3 :=
  (c8_amended_packet_size 4 2).2.2 (by decide)

/-- C9: the startup geometry check fails with the invalid-region error
(before any frame buffer allocation) exactly when the resolved clip
rectangle extends outside the target bounds, or its width or height is
non-positive, or the probed bit depth is not a multiple of 8; otherwise
the checks pass and startup proceeds with that clip rectangle to the
buffer allocations. -/
theorem c9_geometry_check_iff (virtualRect : Rect) (width height offsetX offsetY bpp : Int) :
    geometryCheck virtualRect width height offsetX offsetY bpp =
        Except.error DcInitErr.invalidRegion ↔
      (extendsOutside (computeClipRect virtualRect width height offsetX offsetY) virtualRect ∨
        (computeClipRect virtualRect width height offsetX offsetY).right -
          (computeClipRect virtualRect width height offsetX offsetY).left ≤ 0 ∨
        (computeClipRect virtualRect width height offsetX offsetY).bottom -
          (computeClipRect virtualRect width height offsetX offsetY).top ≤ 0 ∨
        bpp % 8 ≠ 0) := by
  simp only [geometryCheck, extendsOutside]
  split_ifs with h1 h2
  · simp only [true_iff]
    exact Or.inl h1
  · simp only [true_iff]
    exact Or.inr h2
  · constructor
    · intro h
      exact absurd h (by simp)
    · intro h
      rcases h with h | h
      · exact absurd h h1
      · exact absurd h h2

/-- C10: whenever the recorded fatal error code is non-zero, a consumer
pull — blocking or non-blocking, with or without a completed frame
still pending in the slot — returns AVERROR(EIO) immediately without
waiting, consumes no frame, and leaves the whole shared demuxer state
unchanged. -/
theorem c10_read_packet_terminal_error (s : Shared) (nonblock : Bool)
    (h : s.errorCode ≠ 0) :
    readPacket s nonblock = (ReadRet.eio, s) := by
  simp [readPacket, h]

/-- Witness for C10: a state with recorded error -5 and a completed
frame still pending in the slot; the blocking pull returns the terminal
error with the state, including the pending frame, untouched. -/
theorem c10_read_packet_terminal_error_witness :
    readPacket ⟨-5, some 0, 42⟩ false = (ReadRet.eio, ⟨-5, some 0, 42⟩) ∧
    (Shared.mk (-5) (some 0) 42).frameInStock = some 0 :=
  ⟨c10_read_packet_terminal_error ⟨-5, some 0, 42⟩ false (by decide), rfl⟩

end Gdigrab
